import Mathlib

set_option maxRecDepth 8000

/-!
Verification development for the AI-VideoGen job-orchestration subsystem.

The repository's orchestration core (submission, parameter normalization,
bounded polling, terminal-state handling) is documented in the Runway
integration guide embedded in `src/server/middleware/weamSession.js`; the
guide quotes the decisive snippets of `server/services/runwayService.js`
(model map, aspect-ratio map, the SUCCEEDED update branch, and the `Video`
schema status enum). Definitions below are shallow embeddings of that code;
where the service file itself is absent from the sources, a definition is
modelled from the spec and says so in its doc comment. The authentication
guard and session helper are embedded from `src/server/middleware/weamSession.js`,
`src/unnamed/part_002` and `src/lib/session.ts`, which are present in full.
-/

namespace AIVideo

/-- Internal job status values, taken verbatim from the `Video` schema enum
documented in `src/server/middleware/weamSession.js` line 1208:
`PENDING | PROCESSING | SUCCEEDED | FAILED | CANCELLED`. The schema's
in-flight value is named `PROCESSING`; the enum has no `RUNNING` member. -/
inductive JobStatus where
  | PENDING
  | PROCESSING
  | SUCCEEDED
  | FAILED
  | CANCELLED
  deriving DecidableEq

/-- String literal stored by the schema for each status value. -/
def statusName : JobStatus → String
  | JobStatus.PENDING => "PENDING"
  | JobStatus.PROCESSING => "PROCESSING"
  | JobStatus.SUCCEEDED => "SUCCEEDED"
  | JobStatus.FAILED => "FAILED"
  | JobStatus.CANCELLED => "CANCELLED"

/-- Terminal statuses: SUCCEEDED, FAILED, CANCELLED (spec section 4.3). -/
def isTerminal : JobStatus → Bool
  | JobStatus.SUCCEEDED => true
  | JobStatus.FAILED => true
  | JobStatus.CANCELLED => true
  | _ => false

/-- Validation failures of the parameter normalizer (spec section 4.1). -/
inductive ValidationError where
  | EmptyPrompt
  | InvalidDuration
  | UnsupportedRatio
  deriving DecidableEq

/-- Whitespace characters collapsed by the prompt sanitizer. -/
def isWs (c : Char) : Bool :=
  c = ' ' || c = '\t' || c = '\n' || c = '\r'

/-- Collapse every run of whitespace characters to a single space. -/
def squeeze : List Char → List Char
  | [] => []
  | c :: rest =>
    if isWs c then
      match rest with
      | [] => [' ']
      | d :: tail =>
        if isWs d then squeeze (d :: tail) else ' ' :: squeeze (d :: tail)
    else c :: squeeze rest

/-- Drop leading and trailing whitespace. -/
def trimWs (l : List Char) : List Char :=
  ((l.dropWhile isWs).reverse.dropWhile isWs).reverse

/-- Modelled from the spec: the whitespace normalization of the prompt
sanitizer in the missing `server/services/runwayService.js` — "trims and
collapses whitespace in the prompt" (spec section 4.1; guide Implementation
Notes: "Sanitize prompt (collapse whitespace, trim ...)"). -/
def collapseWs (l : List Char) : List Char :=
  trimWs (squeeze l)

/-- Modelled from the spec: prompt normalization of the missing
`runwayService.js` — trim and collapse whitespace, truncate to 980
characters, fail with `EmptyPrompt` exactly when the result is empty
(spec section 4.1; the guide's "max 980 chars"). -/
def sanitizePrompt (p : List Char) : Except ValidationError (List Char) :=
  if collapseWs p = [] then Except.error ValidationError.EmptyPrompt
  else Except.ok ((collapseWs p).take 980)

/-- Modelled from the spec: duration must be a positive integer number of
seconds, else `InvalidDuration` (spec section 4.1). -/
def checkDuration (d : Int) : Except ValidationError Nat :=
  if 0 < d then Except.ok d.toNat
  else Except.error ValidationError.InvalidDuration

/-- Aspect-ratio conversion. The fixed table is quoted from
`runwayService.js` lines 85:95 in `src/server/middleware/weamSession.js`
lines 1141:1147 (source name convertAspectRatioToRatio); the failure of
unrecognized input with `UnsupportedRatio` is modelled from the spec
(section 4.1). -/
def convertAspect (a : String) : Except ValidationError String :=
  if a = "16:9" then Except.ok "1280:720"
  else if a = "9:16" then Except.ok "720:1280"
  else if a = "1:1" then Except.ok "960:960"
  else if a = "4:3" then Except.ok "1280:960"
  else if a = "3:4" then Except.ok "960:1280"
  else Except.error ValidationError.UnsupportedRatio

/-- Model-name table of `runwayService.js` lines 60:68, quoted in
`src/server/middleware/weamSession.js` lines 1130:1135. -/
def modelMap (m : String) : Option String :=
  if m = "Runway Gen-4 Turbo" then some "gen4_turbo"
  else if m = "Runway Gen-3" then some "gen3"
  else if m = "Veo3" then some "veo3"
  else none

/-- Permissive model mapping, from the quoted source line
`const runwayModel = modelMap[model] || 'gen4_turbo'`: unrecognized names
fall back to the default identifier, never an error. -/
def mapModelName (m : String) : String :=
  (modelMap m).getD "gen4_turbo"

/-- Raw caller-supplied generation parameters. The prompt is the character
sequence of the JS string; `aspect` is the UI aspect-ratio key (source
field name aspectRatio); `model` the display name. -/
structure RawParams where
  prompt : List Char
  duration : Int
  aspect : String
  model : String
  deriving DecidableEq

/-- Normalized parameters (spec section 3): prompt of at most 980 chars,
positive duration, ratio from the fixed set (source payload key `ratio`),
mapped model id. -/
structure NormalizedParams where
  prompt : List Char
  durationSeconds : Nat
  ratioStr : String
  modelId : String
  deriving DecidableEq

/-- Modelled from the spec: `normalize(rawParams)` of the missing parameter
normalizer (spec section 4.1) — sanitize the prompt, check the duration, map
the aspect ratio through the fixed table, map the model name with its
permissive default. -/
def normalize (raw : RawParams) : Except ValidationError NormalizedParams :=
  match sanitizePrompt raw.prompt with
  | Except.error e => Except.error e
  | Except.ok p =>
    match checkDuration raw.duration with
    | Except.error e => Except.error e
    | Except.ok d =>
      match convertAspect raw.aspect with
      | Except.error e => Except.error e
      | Except.ok r =>
        Except.ok { prompt := p, durationSeconds := d, ratioStr := r,
                    modelId := mapModelName raw.model }

/-- Did normalization succeed? -/
def normOk (raw : RawParams) : Bool :=
  match normalize raw with
  | Except.ok _ => true
  | Except.error _ => false

/-- A provider status response (`queryStatus` result): raw state string,
output URLs (an absent `output` field is modelled as `[]`, matching the
quoted `jobStatus.output || []`), optional progress hint, optional failure
detail. -/
structure ProviderStatus where
  state : String
  output : List String
  progressHint : Option ℚ
  failureReason : Option String
  deriving DecidableEq

/-- Modelled from the spec: the provider raw-state to internal-status
mapping of the missing `runwayService.js` (spec section 4.2 table), with
the internal status enum taken from the `Video` schema quoted in src —
the schema names the in-flight state `PROCESSING` and has no `RUNNING`
member, so the provider's RUNNING and every unrecognized state map to
`PROCESSING` (still in-flight, never an error). -/
def mapProviderState (s : String) : JobStatus :=
  if s = "PENDING" then JobStatus.PENDING
  else if s = "THROTTLED" then JobStatus.PENDING
  else if s = "RUNNING" then JobStatus.PROCESSING
  else if s = "SUCCEEDED" then JobStatus.SUCCEEDED
  else if s = "FAILED" then JobStatus.FAILED
  else if s = "CANCELLED" then JobStatus.CANCELLED
  else JobStatus.PROCESSING

/-- The persisted job record (spec section 3; the `Video` document).
Times are in milliseconds from an arbitrary origin. -/
structure JobRecord where
  jobId : String
  providerJobId : Option String
  parameters : NormalizedParams
  status : JobStatus
  progress : ℚ
  outputs : List String
  errorMessage : Option String
  createdAt : ℕ
  updatedAt : ℕ
  completedAt : Option ℕ
  deriving DecidableEq

/-- Polling interval: 5 seconds (guide section 6: "Polling interval: 5s"). -/
def pollIntervalMs : ℕ := 5000

/-- Maximum number of poll attempts: 60 (guide section 6: "Max attempts:
60 (~5 minutes)"). -/
def maxPollAttempts : ℕ := 60

/-- Wall clock of the i-th observation: observations are a fixed 5-second
interval apart, the first 5 seconds after creation. -/
def pollClock (r : JobRecord) (i : ℕ) : ℕ :=
  r.createdAt + i * pollIntervalMs

/-- Modelled from the spec: the linear progress estimate
elapsed-iterations over max-iterations, capped below 1 until terminal
(spec section 4.3 step 2; the exact curve is an implementation choice per
spec section 9). -/
def estProgress (i : ℕ) : ℚ :=
  ((min i (maxPollAttempts - 1) : ℕ) : ℚ) / (maxPollAttempts : ℚ)

/-- Progress for one observation: the provider hint when present, else the
linear estimate. -/
def hintOrEstimate (i : ℕ) (hint : Option ℚ) : ℚ :=
  match hint with
  | some h => h
  | none => estProgress i

/-- Initial record persisted by the job service: status PENDING, empty
outputs, no error, progress 0 (spec sections 3 and 4.4). -/
def mkRecord (jobId : String) (np : NormalizedParams) (now : ℕ) : JobRecord :=
  { jobId := jobId, providerJobId := none, parameters := np,
    status := JobStatus.PENDING, progress := 0, outputs := [],
    errorMessage := none, createdAt := now, updatedAt := now,
    completedAt := none }

/-- One polling iteration's interaction with the provider: either a status
response, or a transient failure (ProviderTimeout or a transport error). -/
inductive PollOutcome where
  | ok (ps : ProviderStatus)
  | transientFailure
  deriving DecidableEq

/-- Modelled from the spec: the record update of one successful observation
(spec section 4.3 step 2, and the SUCCEEDED branch of `runwayService.js`
lines 317:341 quoted in `src/server/middleware/weamSession.js` lines
1196:1201): map the raw state; set status, progress (provider hint or
linear estimate; 1 on SUCCEEDED), outputs on SUCCEEDED (copied verbatim
from the provider response, `jobStatus.output || []`), `updatedAt`; and on
entry to a terminal status also `completedAt` and, for FAILED, the
provider's error detail. -/
def applyObservation (i : ℕ) (ps : ProviderStatus) (r : JobRecord) : JobRecord :=
  match mapProviderState ps.state with
  | JobStatus.SUCCEEDED =>
    { r with status := JobStatus.SUCCEEDED, progress := 1,
             outputs := ps.output, updatedAt := pollClock r i,
             completedAt := some (pollClock r i) }
  | JobStatus.FAILED =>
    { r with status := JobStatus.FAILED,
             progress := hintOrEstimate i ps.progressHint,
             errorMessage := some (ps.failureReason.getD "generation failed"),
             updatedAt := pollClock r i,
             completedAt := some (pollClock r i) }
  | JobStatus.CANCELLED =>
    { r with status := JobStatus.CANCELLED,
             progress := hintOrEstimate i ps.progressHint,
             updatedAt := pollClock r i,
             completedAt := some (pollClock r i) }
  | JobStatus.PENDING =>
    { r with status := JobStatus.PENDING,
             progress := hintOrEstimate i ps.progressHint,
             updatedAt := pollClock r i }
  | JobStatus.PROCESSING =>
    { r with status := JobStatus.PROCESSING,
             progress := hintOrEstimate i ps.progressHint,
             updatedAt := pollClock r i }

/-- Modelled from the spec: exhaustion of the observation budget forces the
job to FAILED with errorMessage "polling timeout" and `completedAt` set
(spec section 4.3 step 5); the forced check performs no further mutation
when the record is already terminal (spec section 8, idempotence). The
argument `i` is the index of the first unperformed observation. -/
def timeoutFail (i : ℕ) (r : JobRecord) : JobRecord :=
  if isTerminal r.status then r
  else
    { r with status := JobStatus.FAILED,
             errorMessage := some "polling timeout",
             updatedAt := pollClock r (i - 1),
             completedAt := some (pollClock r (i - 1)) }

/-- Whether an iteration's outcome carried a terminal mapped status. -/
def observedTerminal : PollOutcome → Bool
  | PollOutcome.ok ps => isTerminal (mapProviderState ps.state)
  | PollOutcome.transientFailure => false

/-- Modelled from the spec: the polling loop of the missing
`runwayService.js` (spec section 4.3). `obs k` is the outcome of the k-th
`queryStatus` call; the first explicit argument is the remaining
observation budget, the second the index of the next observation. Returns
the final persisted record and the number of observations performed. A
transient failure skips the iteration without mutating the record; a
successful observation updates the record, and the loop stops when the
updated status is terminal; an exhausted budget forces the timeout
failure. -/
def pollFrom (obs : ℕ → PollOutcome) : ℕ → ℕ → JobRecord → JobRecord × ℕ
  | 0, i, r => (timeoutFail i r, 0)
  | fuel + 1, i, r =>
    match obs i with
    | PollOutcome.transientFailure =>
      let rest := pollFrom obs fuel (i + 1) r
      (rest.1, rest.2 + 1)
    | PollOutcome.ok ps =>
      let r2 := applyObservation i ps r
      if isTerminal r2.status then (r2, 1)
      else
        let rest := pollFrom obs fuel (i + 1) r2
        (rest.1, rest.2 + 1)

/-- The sequence of record states persisted by the loop's update calls, in
order (the initial record is not repeated here). A transient iteration
persists nothing; reaching a terminal status ends the sequence. -/
def pollTrace (obs : ℕ → PollOutcome) : ℕ → ℕ → JobRecord → List JobRecord
  | 0, i, r => [timeoutFail i r]
  | fuel + 1, i, r =>
    match obs i with
    | PollOutcome.transientFailure => pollTrace obs fuel (i + 1) r
    | PollOutcome.ok ps =>
      let r2 := applyObservation i ps r
      if isTerminal r2.status then [r2]
      else r2 :: pollTrace obs fuel (i + 1) r2

/-- Result of the provider submit call: a provider job id, or a failure
whose message captures the provider error body. -/
inductive SubmitResult where
  | ok (providerJobId : String)
  | fail (message : String)
  deriving DecidableEq

/-- Modelled from the spec: persistence right after the submit call (spec
sections 4.3 end and 4.4). On success the PENDING record carries the
provider job id and the polling loop is started (boolean `true`); on
failure the record is created directly FAILED with the submission error
captured, and no loop is started (`false`). -/
def submitAndPersist (jobId : String) (np : NormalizedParams)
    (res : SubmitResult) (now : ℕ) : JobRecord × Bool :=
  match res with
  | SubmitResult.ok pid =>
    ({ (mkRecord jobId np now) with providerJobId := some pid }, true)
  | SubmitResult.fail msg =>
    let failed : JobRecord :=
      { (mkRecord jobId np now) with
        status := JobStatus.FAILED
        errorMessage := some msg
        completedAt := some now }
    (failed, false)

/-- Modelled from the spec: the job service create path — normalize, then
submit and persist; validation failures surface to the caller and create
no record (spec section 4.4). -/
def createJob (jobId : String) (raw : RawParams) (res : SubmitResult)
    (now : ℕ) : Except ValidationError (JobRecord × Bool) :=
  match normalize raw with
  | Except.error e => Except.error e
  | Except.ok np => Except.ok (submitAndPersist jobId np res now)

/-- The job service read path: a pure lookup of the persisted record (spec
section 4.4); by construction it performs no mutation. -/
def getJob (store : String → Option JobRecord) (jobId : String) :
    Option JobRecord :=
  store jobId

/-- Weam user object synthesized or propagated by the middleware:
`{_id, email, companyId}` (`_id` is `userId` here). -/
structure WeamUser where
  userId : String
  email : String
  companyId : String
  deriving DecidableEq

/-- The session's user as read from the iron-session cookie, with the role
code consulted by the guard. -/
structure SessionUser where
  userId : String
  email : String
  companyId : String
  roleCode : String
  deriving DecidableEq

/-- Request state relevant to the guard: the loaded session user, if any,
and the current `req.user`. -/
structure ReqState where
  sessionUser : Option SessionUser
  reqUser : Option WeamUser
  deriving DecidableEq

/-- Result of the guard middleware: pass to the next handler with the
resulting `req.user`, or respond with an error status and message. -/
inductive AuthDecision where
  | proceed (user : Option WeamUser)
  | reject (status : ℕ) (message : String)
  deriving DecidableEq

/-- Outcome of the check-access call on the non-bypass path: access
granted, access denied, or the call threw (caught by the guard). -/
inductive AccessOutcome where
  | granted
  | denied
  | errored
  deriving DecidableEq

/-- The synthesized dev user of the bypass branch
(`src/server/middleware/weamSession.js` line 56). -/
def devUser : WeamUser :=
  { userId := "dev-user", email := "dev@local", companyId := "dev-company" }

/-- Guard `requireWeamAuth` of `src/server/middleware/weamSession.js` lines
51:87: when the environment's WEAM_AUTH_BYPASS equals the string true the
request is admitted unconditionally, synthesizing the dev user when
`req.user` is absent (`req.user = req.user || {...}`); otherwise a missing
session yields 401, and a USER-role session is admitted only when the
check-access call grants access. -/
def requireWeamAuth (bypassEnv : String) (req : ReqState)
    (access : AccessOutcome) : AuthDecision :=
  if bypassEnv = "true" then
    AuthDecision.proceed (some (req.reqUser.getD devUser))
  else
    match req.sessionUser with
    | none => AuthDecision.reject 401 "Unauthorized: Weam session not found"
    | some u =>
      if u.roleCode = "USER" then
        match access with
        | AccessOutcome.granted => AuthDecision.proceed req.reqUser
        | AccessOutcome.denied => AuthDecision.reject 401 "Access denied"
        | AccessOutcome.errored => AuthDecision.reject 401 "Access check failed"
      else AuthDecision.proceed req.reqUser

/-- The `requireWeamAuth` variant of `src/unnamed/part_002` lines 50:88,
which hides authentication status behind 404 responses; its bypass branch
is identical to the 401 variant. -/
def requireWeamAuthHidden (bypassEnv : String) (req : ReqState)
    (access : AccessOutcome) : AuthDecision :=
  if bypassEnv = "true" then
    AuthDecision.proceed (some (req.reqUser.getD devUser))
  else
    match req.sessionUser with
    | none => AuthDecision.reject 404 "Not found"
    | some u =>
      if u.roleCode = "USER" then
        match access with
        | AccessOutcome.granted => AuthDecision.proceed req.reqUser
        | AccessOutcome.denied => AuthDecision.reject 404 "Not found"
        | AccessOutcome.errored => AuthDecision.reject 404 "Not found"
      else AuthDecision.proceed req.reqUser

/-- The `{id, email}` user of the Next.js session helper. -/
structure IdEmailUser where
  id : String
  email : String
  deriving DecidableEq

/-- Session value returned by `getSession` of `src/lib/session.ts`. -/
structure WeamSessionData where
  user : Option IdEmailUser
  companyId : Option String
  deriving DecidableEq

/-- Helper `getSession` of `src/lib/session.ts` lines 9:21: with
WEAM_AUTH_BYPASS equal to the string true, a synthetic dev-user session is
returned; otherwise, with cookie name and password configured, the
iron-session decode result (modelled by `ironDecoded`) is returned, and an
empty session when either variable is unset. -/
def getSession (bypassEnv : String) (cookieName cookiePassword : Option String)
    (ironDecoded : WeamSessionData) : WeamSessionData :=
  if bypassEnv = "true" then
    { user := some { id := "dev-user", email := "dev@local" },
      companyId := some "dev-company" }
  else
    match cookieName, cookiePassword with
    | some _, some _ => ironDecoded
    | _, _ => { user := none, companyId := none }

/-- Sample normalized parameters (spec section 8 scenario). -/
def npEx : NormalizedParams :=
  { prompt := ['c', 'a', 't'], durationSeconds := 5,
    ratioStr := "1280:720", modelId := "gen4_turbo" }

/-- Normalization result of `rawEx` (model Veo3 maps to veo3). -/
def npEx2 : NormalizedParams :=
  { prompt := ['c', 'a', 't'], durationSeconds := 5,
    ratioStr := "1280:720", modelId := "veo3" }

/-- Sample raw parameters with a valid prompt, duration and ratio. -/
def rawEx : RawParams :=
  { prompt := ['c', 'a', 't'], duration := 5, aspect := "16:9",
    model := "Veo3" }

/-- Sample freshly created record carrying a provider job id. -/
def recEx : JobRecord :=
  { (mkRecord "job-1" npEx 0) with providerJobId := some "abc123" }

/-- Provider response stream that always reports RUNNING. -/
def obsRunning : ℕ → PollOutcome :=
  fun _ => PollOutcome.ok
    { state := "RUNNING", output := [], progressHint := none,
      failureReason := none }

/-- Provider response stream that reports SUCCEEDED with an empty output
list on every call. -/
def obsEmptySucc : ℕ → PollOutcome :=
  fun _ => PollOutcome.ok
    { state := "SUCCEEDED", output := [], progressHint := none,
      failureReason := none }

/-- Provider response stream that reports SUCCEEDED with one output URL. -/
def obsSucc : ℕ → PollOutcome :=
  fun _ => PollOutcome.ok
    { state := "SUCCEEDED", output := ["https://x/video.mp4"],
      progressHint := none, failureReason := none }

/-- Provider response stream whose first call fails transiently and which
reports RUNNING afterwards. -/
def obsBlip : ℕ → PollOutcome :=
  fun k => if k = 1 then PollOutcome.transientFailure else obsRunning k

theorem applyObservation_status (i : ℕ) (ps : ProviderStatus) (r : JobRecord) :
    (applyObservation i ps r).status = mapProviderState ps.state := by
  unfold applyObservation
  split <;> simp_all

theorem applyObservation_outputs (i : ℕ) (ps : ProviderStatus) (r : JobRecord) :
    (applyObservation i ps r).outputs =
      if mapProviderState ps.state = JobStatus.SUCCEEDED then ps.output
      else r.outputs := by
  unfold applyObservation
  split <;> simp_all

theorem convertAspect_ok_mem (a r2 : String)
    (h : convertAspect a = Except.ok r2) :
    r2 ∈ ["1280:720", "720:1280", "960:960", "1280:960", "960:1280"] := by
  unfold convertAspect at h
  split_ifs at h
  all_goals first
    | exact Except.noConfusion h
    | (simp only [Except.ok.injEq] at h; subst h; decide)

theorem convertAspect_notin_err (a : String)
    (h : a ∉ ["16:9", "9:16", "1:1", "4:3", "3:4"]) :
    convertAspect a = Except.error ValidationError.UnsupportedRatio := by
  simp only [List.mem_cons, List.not_mem_nil, or_false] at h
  push_neg at h
  obtain ⟨h1, h2, h3, h4, h5⟩ := h
  unfold convertAspect
  rw [if_neg h1, if_neg h2, if_neg h3, if_neg h4, if_neg h5]

/-- C4: when the provider submit call fails, the job record is created
directly with status FAILED, the submission error is captured in
errorMessage, no polling loop is started, and the record's status is not
the in-flight status (the schema's PROCESSING, the spec's RUNNING); the
same holds for the full create path whenever it produces a record. -/
theorem c4_submit_failure (jobId : String) (np : NormalizedParams)
    (e : String) (now : ℕ) (raw : RawParams) :
    (submitAndPersist jobId np (SubmitResult.fail e) now).1.status = JobStatus.FAILED ∧
    (submitAndPersist jobId np (SubmitResult.fail e) now).1.errorMessage = some e ∧
    (submitAndPersist jobId np (SubmitResult.fail e) now).2 = false ∧
    (submitAndPersist jobId np (SubmitResult.fail e) now).1.status ≠ JobStatus.PROCESSING ∧
    (∀ out, createJob jobId raw (SubmitResult.fail e) now = Except.ok out →
      out.1.status = JobStatus.FAILED ∧ out.1.errorMessage = some e ∧
      out.2 = false) := by
  refine ⟨rfl, rfl, rfl, ?_, ?_⟩
  · intro hc
    exact JobStatus.noConfusion hc
  · intro out h
    unfold createJob at h
    cases hn : normalize raw with
    | error e2 => rw [hn] at h; exact Except.noConfusion h
    | ok np2 =>
      rw [hn] at h
      simp only [Except.ok.injEq] at h
      subst h
      exact ⟨rfl, rfl, rfl⟩

/-- Witness for C4 at a concrete failing submission. -/
theorem c4_submit_failure_witness :
    createJob "job-1" rawEx (SubmitResult.fail "HTTP 401 provider body") 0 =
      Except.ok (submitAndPersist "job-1" npEx2 (SubmitResult.fail "HTTP 401 provider body") 0) ∧
    (submitAndPersist "job-1" npEx2 (SubmitResult.fail "HTTP 401 provider body") 0).1.status = JobStatus.FAILED ∧
    (submitAndPersist "job-1" npEx2 (SubmitResult.fail "HTTP 401 provider body") 0).1.errorMessage = some "HTTP 401 provider body" ∧
    (submitAndPersist "job-1" npEx2 (SubmitResult.fail "HTTP 401 provider body") 0).2 = false :=
  ⟨rfl,
   ((c4_submit_failure "job-1" npEx2 "HTTP 401 provider body" 0 rawEx).2.2.2.2
     (submitAndPersist "job-1" npEx2 (SubmitResult.fail "HTTP 401 provider body") 0) rfl).1,
   ((c4_submit_failure "job-1" npEx2 "HTTP 401 provider body" 0 rawEx).2.2.2.2
     (submitAndPersist "job-1" npEx2 (SubmitResult.fail "HTTP 401 provider body") 0) rfl).2.1,
   ((c4_submit_failure "job-1" npEx2 "HTTP 401 provider body" 0 rawEx).2.2.2.2
     (submitAndPersist "job-1" npEx2 (SubmitResult.fail "HTTP 401 provider body") 0) rfl).2.2⟩

/-- C5 counterexample: the internal status computed for the provider raw
state RUNNING is the schema value PROCESSING, whose stored name is not
"RUNNING" — the `Video` schema enum contains no RUNNING member — and the
same holds for an unrecognized provider state, so the claim that these
inputs map to an internal status RUNNING is false. -/
theorem c5_status_counterexample :
    mapProviderState "RUNNING" = JobStatus.PROCESSING ∧
    statusName (mapProviderState "RUNNING") = "PROCESSING" ∧
    statusName (mapProviderState "RUNNING") ≠ "RUNNING" ∧
    mapProviderState "NEW_STATE" = JobStatus.PROCESSING ∧
    statusName (mapProviderState "NEW_STATE") ≠ "RUNNING" := by
  refine ⟨rfl, rfl, ?_, rfl, ?_⟩ <;> decide

/-- C5 (amended): the provider raw states map by the fixed table into the
Video schema's status enum — PENDING and THROTTLED to PENDING, RUNNING to
PROCESSING (the schema's name for the in-flight state), SUCCEEDED, FAILED
and CANCELLED to themselves — and every unrecognized provider state maps
to PROCESSING, still in-flight and never terminal, never an error. -/
theorem c5_status_mapping :
    mapProviderState "PENDING" = JobStatus.PENDING ∧
    mapProviderState "THROTTLED" = JobStatus.PENDING ∧
    mapProviderState "RUNNING" = JobStatus.PROCESSING ∧
    mapProviderState "SUCCEEDED" = JobStatus.SUCCEEDED ∧
    mapProviderState "FAILED" = JobStatus.FAILED ∧
    mapProviderState "CANCELLED" = JobStatus.CANCELLED ∧
    (∀ s, s ∉ ["PENDING", "THROTTLED", "RUNNING", "SUCCEEDED", "FAILED", "CANCELLED"] →
      mapProviderState s = JobStatus.PROCESSING ∧
      isTerminal (mapProviderState s) = false) := by
  refine ⟨rfl, rfl, rfl, rfl, rfl, rfl, ?_⟩
  intro s hs
  simp only [List.mem_cons, List.not_mem_nil, or_false] at hs
  push_neg at hs
  obtain ⟨h1, h2, h3, h4, h5, h6⟩ := hs
  unfold mapProviderState
  rw [if_neg h1, if_neg h2, if_neg h3, if_neg h4, if_neg h5, if_neg h6]
  exact ⟨rfl, rfl⟩

/-- Witness for C5's unrecognized-state clause at a concrete input. -/
theorem c5_status_mapping_witness :
    ("SOME_OTHER" ∉ ["PENDING", "THROTTLED", "RUNNING", "SUCCEEDED", "FAILED", "CANCELLED"]) ∧
    mapProviderState "SOME_OTHER" = JobStatus.PROCESSING ∧
    isTerminal (mapProviderState "SOME_OTHER") = false :=
  ⟨by decide,
   (c5_status_mapping.2.2.2.2.2.2 "SOME_OTHER" (by decide)).1,
   (c5_status_mapping.2.2.2.2.2.2 "SOME_OTHER" (by decide)).2⟩

/-- C6: the aspect ratio is mapped through the fixed table, every
successful conversion (and hence the ratio of every successfully
normalized parameter set) lies in the enumerated output set, and every
input outside the table fails with UnsupportedRatio — at the conversion
itself, and through normalize once the earlier prompt and duration checks
pass. -/
theorem c6_ratio_table :
    (convertAspect "16:9" = Except.ok "1280:720" ∧
     convertAspect "9:16" = Except.ok "720:1280" ∧
     convertAspect "1:1" = Except.ok "960:960" ∧
     convertAspect "4:3" = Except.ok "1280:960" ∧
     convertAspect "3:4" = Except.ok "960:1280") ∧
    (∀ a r2, convertAspect a = Except.ok r2 →
      r2 ∈ ["1280:720", "720:1280", "960:960", "1280:960", "960:1280"]) ∧
    (∀ a, a ∉ ["16:9", "9:16", "1:1", "4:3", "3:4"] →
      convertAspect a = Except.error ValidationError.UnsupportedRatio) ∧
    (∀ raw np, normalize raw = Except.ok np →
      np.ratioStr ∈ ["1280:720", "720:1280", "960:960", "1280:960", "960:1280"]) ∧
    (∀ raw q d, sanitizePrompt raw.prompt = Except.ok q →
      checkDuration raw.duration = Except.ok d →
      raw.aspect ∉ ["16:9", "9:16", "1:1", "4:3", "3:4"] →
      normalize raw = Except.error ValidationError.UnsupportedRatio) := by
  refine ⟨⟨rfl, rfl, rfl, rfl, rfl⟩, convertAspect_ok_mem, convertAspect_notin_err, ?_, ?_⟩
  · intro raw np h
    unfold normalize at h
    cases hs : sanitizePrompt raw.prompt with
    | error e => rw [hs] at h; exact Except.noConfusion h
    | ok p =>
      rw [hs] at h
      cases hd : checkDuration raw.duration with
      | error e => rw [hd] at h; exact Except.noConfusion h
      | ok dd =>
        rw [hd] at h
        cases hc : convertAspect raw.aspect with
        | error e => rw [hc] at h; exact Except.noConfusion h
        | ok rr =>
          rw [hc] at h
          simp only [Except.ok.injEq] at h
          have hm := convertAspect_ok_mem raw.aspect rr hc
          rw [← h]
          simpa using hm
  · intro raw q dd hq hd ha
    unfold normalize
    rw [hq, hd, convertAspect_notin_err raw.aspect ha]

/-- Witness for C6 at concrete inputs. -/
theorem c6_ratio_table_witness :
    ("1280:720" ∈ ["1280:720", "720:1280", "960:960", "1280:960", "960:1280"]) ∧
    convertAspect "7:5" = Except.error ValidationError.UnsupportedRatio ∧
    npEx2.ratioStr ∈ ["1280:720", "720:1280", "960:960", "1280:960", "960:1280"] :=
  ⟨c6_ratio_table.2.1 "16:9" "1280:720" rfl,
   c6_ratio_table.2.2.1 "7:5" (by decide),
   c6_ratio_table.2.2.2.1 rawEx npEx2 rfl⟩

/-- C8: the model name is mapped through the fixed display-name table,
every name outside the table yields the configured default gen4_turbo
rather than an error, and normalization success never depends on the
model name. -/
theorem c8_model_fallback :
    (mapModelName "Runway Gen-4 Turbo" = "gen4_turbo" ∧
     mapModelName "Runway Gen-3" = "gen3" ∧
     mapModelName "Veo3" = "veo3") ∧
    (∀ m, m ∉ ["Runway Gen-4 Turbo", "Runway Gen-3", "Veo3"] →
      mapModelName m = "gen4_turbo") ∧
    (∀ raw m, normOk { raw with model := m } = normOk raw) := by
  refine ⟨⟨rfl, rfl, rfl⟩, ?_, ?_⟩
  · intro m hm
    simp only [List.mem_cons, List.not_mem_nil, or_false] at hm
    push_neg at hm
    obtain ⟨h1, h2, h3⟩ := hm
    unfold mapModelName modelMap
    rw [if_neg h1, if_neg h2, if_neg h3]
    rfl
  · intro raw m
    have hp : ({ raw with model := m } : RawParams).prompt = raw.prompt := rfl
    have hd2 : ({ raw with model := m } : RawParams).duration = raw.duration := rfl
    have ha2 : ({ raw with model := m } : RawParams).aspect = raw.aspect := rfl
    unfold normOk normalize
    rw [hp, hd2, ha2]
    cases sanitizePrompt raw.prompt with
    | error e => rfl
    | ok p =>
      cases checkDuration raw.duration with
      | error e => rfl
      | ok dd =>
        cases convertAspect raw.aspect with
        | error e => rfl
        | ok rr => rfl

/-- Witness for C8 at a concrete unrecognized model name. -/
theorem c8_model_fallback_witness :
    ("Banana" ∉ ["Runway Gen-4 Turbo", "Runway Gen-3", "Veo3"]) ∧
    mapModelName "Banana" = "gen4_turbo" ∧
    normOk { rawEx with model := "Banana" } = normOk rawEx :=
  ⟨by decide,
   c8_model_fallback.2.1 "Banana" (by decide),
   c8_model_fallback.2.2 rawEx "Banana"⟩

theorem pollFrom_count_le (obs : ℕ → PollOutcome) :
    ∀ (fuel i : ℕ) (r : JobRecord), (pollFrom obs fuel i r).2 ≤ fuel := by
  intro fuel
  induction fuel with
  | zero => intro i r; exact Nat.le_refl 0
  | succ n ih =>
    intro i r
    cases ho : obs i with
    | transientFailure =>
      simp only [pollFrom, ho]
      exact Nat.succ_le_succ (ih (i + 1) r)
    | ok ps =>
      simp only [pollFrom, ho]
      split
      · exact Nat.succ_le_succ (Nat.zero_le n)
      · exact Nat.succ_le_succ (ih (i + 1) _)

theorem pollFrom_timeout (obs : ℕ → PollOutcome)
    (hobs : ∀ k, observedTerminal (obs k) = false) :
    ∀ (fuel i : ℕ) (r : JobRecord), isTerminal r.status = false →
      (pollFrom obs fuel i r).1.status = JobStatus.FAILED ∧
      (pollFrom obs fuel i r).1.errorMessage = some "polling timeout" ∧
      ((pollFrom obs fuel i r).1.completedAt).isSome = true := by
  intro fuel
  induction fuel with
  | zero =>
    intro i r hr
    simp [pollFrom, timeoutFail, hr]
  | succ n ih =>
    intro i r hr
    cases ho : obs i with
    | transientFailure =>
      simp only [pollFrom, ho]
      exact ih (i + 1) r hr
    | ok ps =>
      have hterm : isTerminal (mapProviderState ps.state) = false := by
        have hk := hobs i
        rw [ho] at hk
        exact hk
      have h2 : isTerminal (applyObservation i ps r).status = false := by
        rw [applyObservation_status]
        exact hterm
      simp only [pollFrom, ho, h2, Bool.false_eq_true, if_false]
      exact ih (i + 1) _ h2

/-- C1: the polling loop performs at most 60 observations (5 seconds
apart, per pollClock), and if no observation yields a terminal status the
loop stops with the record forced to FAILED, errorMessage "polling
timeout", and completedAt set — no polling loop runs unboundedly. -/
theorem c1_polling_budget (obs : ℕ → PollOutcome) (r : JobRecord) :
    (pollFrom obs maxPollAttempts 1 r).2 ≤ maxPollAttempts ∧
    ((∀ k, observedTerminal (obs k) = false) → isTerminal r.status = false →
      (pollFrom obs maxPollAttempts 1 r).1.status = JobStatus.FAILED ∧
      (pollFrom obs maxPollAttempts 1 r).1.errorMessage = some "polling timeout" ∧
      ((pollFrom obs maxPollAttempts 1 r).1.completedAt).isSome = true) :=
  ⟨pollFrom_count_le obs maxPollAttempts 1 r,
   fun hobs hr => pollFrom_timeout obs hobs maxPollAttempts 1 r hr⟩

/-- Witness for C1: sixty consecutive RUNNING responses end in the forced
polling-timeout failure. -/
theorem c1_polling_budget_witness :
    (∀ k, observedTerminal (obsRunning k) = false) ∧
    isTerminal recEx.status = false ∧
    (pollFrom obsRunning maxPollAttempts 1 recEx).2 ≤ maxPollAttempts ∧
    (pollFrom obsRunning maxPollAttempts 1 recEx).1.status = JobStatus.FAILED ∧
    (pollFrom obsRunning maxPollAttempts 1 recEx).1.errorMessage = some "polling timeout" := by
  refine ⟨fun k => rfl, rfl, (c1_polling_budget obsRunning recEx).1, ?_, ?_⟩
  · exact ((c1_polling_budget obsRunning recEx).2 (fun k => rfl) rfl).1
  · exact ((c1_polling_budget obsRunning recEx).2 (fun k => rfl) rfl).2.1

/-- C9: an iteration whose queryStatus fails transiently mutates nothing —
the rest of the loop runs on the very same record, the attempt is counted,
and no record state is persisted by the skipped iteration. -/
theorem c9_transient_skip (obs : ℕ → PollOutcome) (fuel i : ℕ)
    (r : JobRecord) (h : obs i = PollOutcome.transientFailure) :
    (pollFrom obs (fuel + 1) i r).1 = (pollFrom obs fuel (i + 1) r).1 ∧
    (pollFrom obs (fuel + 1) i r).2 = (pollFrom obs fuel (i + 1) r).2 + 1 ∧
    pollTrace obs (fuel + 1) i r = pollTrace obs fuel (i + 1) r := by
  refine ⟨?_, ?_, ?_⟩ <;> simp [pollFrom, pollTrace, h]

/-- Witness for C9 at a concrete stream whose first call fails
transiently. -/
theorem c9_transient_skip_witness :
    obsBlip 1 = PollOutcome.transientFailure ∧
    (pollFrom obsBlip 60 1 recEx).1 = (pollFrom obsBlip 59 2 recEx).1 ∧
    pollTrace obsBlip 60 1 recEx = pollTrace obsBlip 59 2 recEx :=
  ⟨rfl,
   (c9_transient_skip obsBlip 59 1 recEx rfl).1,
   (c9_transient_skip obsBlip 59 1 recEx rfl).2.2⟩

/-- C3: in the sequence of persisted record states of a polling run that
starts from a non-terminal record (creation persists PENDING), every state
except the final one is non-terminal: once a terminal status (SUCCEEDED,
FAILED or CANCELLED) is persisted the loop has stopped, so no operation
ever follows it and no transition leaves a terminal state. The read path
getJob is a pure lookup and mutates nothing by construction. -/
theorem c3_terminal_absorbing (obs : ℕ → PollOutcome) :
    ∀ (fuel i : ℕ) (r : JobRecord), isTerminal r.status = false →
      ∀ rec ∈ (r :: pollTrace obs fuel i r).dropLast,
        isTerminal rec.status = false := by
  intro fuel
  induction fuel with
  | zero =>
    intro i r hr rec hmem
    simp only [pollTrace, List.dropLast, List.mem_singleton] at hmem
    subst hmem
    exact hr
  | succ n ih =>
    intro i r hr rec hmem
    cases ho : obs i with
    | transientFailure =>
      simp only [pollTrace, ho] at hmem
      exact ih (i + 1) r hr rec hmem
    | ok ps =>
      by_cases ht : isTerminal (applyObservation i ps r).status = true
      · simp only [pollTrace, ho, ht, if_true, List.dropLast,
          List.mem_singleton] at hmem
        subst hmem
        exact hr
      · have hf : isTerminal (applyObservation i ps r).status = false := by
          simpa using ht
        simp only [pollTrace, ho, hf, Bool.false_eq_true, if_false,
          List.dropLast, List.mem_cons] at hmem
        rcases hmem with hcase | hcase
        · subst hcase
          exact hr
        · exact ih (i + 1) _ hf rec (by simpa [List.dropLast] using hcase)

/-- Witness for C3 at a run that succeeds on the first observation. -/
theorem c3_terminal_absorbing_witness :
    isTerminal recEx.status = false ∧
    recEx ∈ (recEx :: pollTrace obsSucc 60 1 recEx).dropLast := by
  have hmem : recEx ∈ (recEx :: pollTrace obsSucc 60 1 recEx).dropLast := by
    decide
  exact ⟨c3_terminal_absorbing obsSucc 60 1 recEx rfl recEx hmem, hmem⟩

theorem pollTrace_outputs_inv (obs : ℕ → PollOutcome)
    (hp : ∀ k ps, obs k = PollOutcome.ok ps →
      mapProviderState ps.state = JobStatus.SUCCEEDED → ps.output ≠ []) :
    ∀ (fuel i : ℕ) (r : JobRecord), isTerminal r.status = false →
      r.outputs = [] →
      ∀ rec ∈ pollTrace obs fuel i r,
        ((rec.outputs ≠ []) ↔ rec.status = JobStatus.SUCCEEDED) := by
  intro fuel
  induction fuel with
  | zero =>
    intro i r hr hout rec hmem
    simp only [pollTrace, List.mem_singleton] at hmem
    subst hmem
    simp [timeoutFail, hr, hout]
  | succ n ih =>
    intro i r hr hout rec hmem
    cases ho : obs i with
    | transientFailure =>
      simp only [pollTrace, ho] at hmem
      exact ih (i + 1) r hr hout rec hmem
    | ok ps =>
      have hst := applyObservation_status i ps r
      have hout2 := applyObservation_outputs i ps r
      by_cases hsucc : mapProviderState ps.state = JobStatus.SUCCEEDED
      · have ht : isTerminal (applyObservation i ps r).status = true := by
          rw [hst, hsucc]
          rfl
        simp only [pollTrace, ho, ht, if_true, List.mem_singleton] at hmem
        subst hmem
        rw [hout2, if_pos hsucc, hst, hsucc]
        simp [hp i ps ho hsucc]
      · by_cases ht : isTerminal (applyObservation i ps r).status = true
        · simp only [pollTrace, ho, ht, if_true, List.mem_singleton] at hmem
          subst hmem
          rw [hout2, if_neg hsucc, hout, hst]
          simp [hsucc]
        · have hf : isTerminal (applyObservation i ps r).status = false := by
            simpa using ht
          simp only [pollTrace, ho, hf, Bool.false_eq_true, if_false,
            List.mem_cons] at hmem
          rcases hmem with hcase | hcase
          · subst hcase
            rw [hout2, if_neg hsucc, hout, hst]
            simp [hsucc]
          · exact ih (i + 1) _ hf
              (by rw [hout2, if_neg hsucc]; exact hout) rec hcase

theorem pollTrace_outputs_succ (obs : ℕ → PollOutcome) :
    ∀ (fuel i : ℕ) (r : JobRecord), isTerminal r.status = false →
      r.outputs = [] →
      ∀ rec ∈ pollTrace obs fuel i r,
        rec.outputs ≠ [] → rec.status = JobStatus.SUCCEEDED := by
  intro fuel
  induction fuel with
  | zero =>
    intro i r hr hout rec hmem
    simp only [pollTrace, List.mem_singleton] at hmem
    subst hmem
    simp [timeoutFail, hr, hout]
  | succ n ih =>
    intro i r hr hout rec hmem
    cases ho : obs i with
    | transientFailure =>
      simp only [pollTrace, ho] at hmem
      exact ih (i + 1) r hr hout rec hmem
    | ok ps =>
      have hst := applyObservation_status i ps r
      have hout2 := applyObservation_outputs i ps r
      by_cases hsucc : mapProviderState ps.state = JobStatus.SUCCEEDED
      · have ht : isTerminal (applyObservation i ps r).status = true := by
          rw [hst, hsucc]
          rfl
        simp only [pollTrace, ho, ht, if_true, List.mem_singleton] at hmem
        subst hmem
        intro _
        rw [hst, hsucc]
      · by_cases ht : isTerminal (applyObservation i ps r).status = true
        · simp only [pollTrace, ho, ht, if_true, List.mem_singleton] at hmem
          subst hmem
          rw [hout2, if_neg hsucc, hout]
          intro hc
          exact absurd rfl hc
        · have hf : isTerminal (applyObservation i ps r).status = false := by
            simpa using ht
          simp only [pollTrace, ho, hf, Bool.false_eq_true, if_false,
            List.mem_cons] at hmem
          rcases hmem with hcase | hcase
          · subst hcase
            rw [hout2, if_neg hsucc, hout]
            intro hc
            exact absurd rfl hc
          · exact ih (i + 1) _ hf
              (by rw [hout2, if_neg hsucc]; exact hout) rec hcase

/-- C2 (amended): in every reachable record state of a polling run from the
freshly created record, non-empty outputs imply status SUCCEEDED — proved
unconditionally, in particular for runs whose SUCCEEDED response has empty
output — and the full equivalence holds provided every SUCCEEDED provider
response carries at least one output; the SUCCEEDED branch copies the
provider's output list verbatim, so that proviso is exactly what the code
needs for the converse. -/
theorem c2_outputs_iff (obs : ℕ → PollOutcome) (fuel i : ℕ) (r : JobRecord)
    (h0 : r.status = JobStatus.PENDING) (h1 : r.outputs = []) :
    (∀ rec ∈ r :: pollTrace obs fuel i r,
      rec.outputs ≠ [] → rec.status = JobStatus.SUCCEEDED) ∧
    ((∀ k ps, obs k = PollOutcome.ok ps →
        mapProviderState ps.state = JobStatus.SUCCEEDED → ps.output ≠ []) →
      ∀ rec ∈ r :: pollTrace obs fuel i r,
        ((rec.outputs ≠ []) ↔ rec.status = JobStatus.SUCCEEDED)) := by
  have hr : isTerminal r.status = false := by
    rw [h0]
    rfl
  constructor
  · intro rec hmem
    rcases List.mem_cons.mp hmem with hcase | hcase
    · subst hcase
      intro hc
      exact absurd h1 hc
    · exact pollTrace_outputs_succ obs fuel i r hr h1 rec hcase
  · intro hp rec hmem
    rcases List.mem_cons.mp hmem with hcase | hcase
    · subst hcase
      simp [h0, h1]
    · exact pollTrace_outputs_inv obs hp fuel i r hr h1 rec hcase

/-- Witness for C2: the unconditional clause applied to the run whose
SUCCEEDED response has empty output, and the equivalence applied to a run
whose SUCCEEDED response carries one URL. -/
theorem c2_outputs_iff_witness :
    recEx.status = JobStatus.PENDING ∧
    recEx.outputs = [] ∧
    (∀ k ps, obsSucc k = PollOutcome.ok ps →
      mapProviderState ps.state = JobStatus.SUCCEEDED → ps.output ≠ []) ∧
    (∀ rec ∈ recEx :: pollTrace obsEmptySucc 60 1 recEx,
      rec.outputs ≠ [] → rec.status = JobStatus.SUCCEEDED) ∧
    ((recEx.outputs ≠ []) ↔ recEx.status = JobStatus.SUCCEEDED) := by
  have hp : ∀ k ps, obsSucc k = PollOutcome.ok ps →
      mapProviderState ps.state = JobStatus.SUCCEEDED → ps.output ≠ [] := by
    intro k ps hk hm
    simp only [obsSucc, PollOutcome.ok.injEq] at hk
    obtain rfl := hk
    decide
  exact ⟨rfl, rfl, hp,
    (c2_outputs_iff obsEmptySucc 60 1 recEx rfl rfl).1,
    ((c2_outputs_iff obsSucc 60 1 recEx rfl rfl).2 hp) recEx
      (List.mem_cons_self _ _)⟩

/-- C2 counterexample: a SUCCEEDED provider response with an empty output
list (the quoted source copies `jobStatus.output || []` verbatim) yields a
persisted record with status SUCCEEDED and empty outputs, so the claimed
equivalence "outputs non-empty iff SUCCEEDED" is false at this reachable
state. -/
theorem c2_outputs_counterexample :
    (pollFrom obsEmptySucc maxPollAttempts 1 recEx).1.status = JobStatus.SUCCEEDED ∧
    (pollFrom obsEmptySucc maxPollAttempts 1 recEx).1.outputs = [] ∧
    ¬(((pollFrom obsEmptySucc maxPollAttempts 1 recEx).1.outputs ≠ []) ↔
      (pollFrom obsEmptySucc maxPollAttempts 1 recEx).1.status = JobStatus.SUCCEEDED) := by
  refine ⟨?_, ?_, ?_⟩ <;> decide

/-- C7: the prompt sanitizer fails with EmptyPrompt exactly when the
whitespace-collapsed prompt is empty; every successful result is a prefix
of the collapsed input; and when the collapsed input exceeds 980
characters the result is its 980-character prefix, of length exactly
980. -/
theorem c7_prompt_sanitize (p : List Char) :
    (sanitizePrompt p = Except.error ValidationError.EmptyPrompt ↔ collapseWs p = []) ∧
    (∀ q, sanitizePrompt p = Except.ok q → ∃ t, q ++ t = collapseWs p) ∧
    (980 < (collapseWs p).length →
      sanitizePrompt p = Except.ok ((collapseWs p).take 980) ∧
      ((collapseWs p).take 980).length = 980) := by
  refine ⟨⟨?_, ?_⟩, ?_, ?_⟩
  · intro h
    by_cases hc : collapseWs p = []
    · exact hc
    · unfold sanitizePrompt at h
      rw [if_neg hc] at h
      exact Except.noConfusion h
  · intro hc
    unfold sanitizePrompt
    rw [if_pos hc]
  · intro q h
    by_cases hc : collapseWs p = []
    · unfold sanitizePrompt at h
      rw [if_pos hc] at h
      exact Except.noConfusion h
    · unfold sanitizePrompt at h
      rw [if_neg hc] at h
      simp only [Except.ok.injEq] at h
      subst h
      exact ⟨(collapseWs p).drop 980, List.take_append_drop 980 (collapseWs p)⟩
  · intro hlen
    have hc : collapseWs p ≠ [] := by
      intro h0
      rw [h0] at hlen
      simp at hlen
    refine ⟨?_, ?_⟩
    · unfold sanitizePrompt
      rw [if_neg hc]
    · rw [List.length_take]
      exact Nat.min_eq_left (Nat.le_of_lt hlen)

/-- Witness for C7 at a 981-character prompt and an all-whitespace
prompt. -/
theorem c7_prompt_sanitize_witness :
    (980 < (collapseWs (List.replicate 981 'a')).length) ∧
    sanitizePrompt (List.replicate 981 'a') =
      Except.ok ((collapseWs (List.replicate 981 'a')).take 980) ∧
    ((collapseWs (List.replicate 981 'a')).take 980).length = 980 ∧
    collapseWs [' ', ' '] = [] ∧
    sanitizePrompt [' ', ' '] = Except.error ValidationError.EmptyPrompt := by
  have hlen : 980 < (collapseWs (List.replicate 981 'a')).length := by decide
  have hemp : collapseWs [' ', ' '] = [] := by decide
  exact ⟨hlen,
    ((c7_prompt_sanitize (List.replicate 981 'a')).2.2 hlen).1,
    ((c7_prompt_sanitize (List.replicate 981 'a')).2.2 hlen).2,
    hemp,
    (c7_prompt_sanitize [' ', ' ']).1.mpr hemp⟩

/-- C10: when the WEAM_AUTH_BYPASS environment variable equals the string
true, both authentication guards admit every request — synthesizing the
dev user when `req.user` is absent and never producing an error status —
and getSession returns the synthetic dev-user session, regardless of the
session, access-check outcome, or cookie configuration. -/
theorem c10_auth_bypass (env : String) (req : ReqState) (acc : AccessOutcome)
    (cn cp : Option String) (dec : WeamSessionData) (h : env = "true") :
    requireWeamAuth env req acc = AuthDecision.proceed (some (req.reqUser.getD devUser)) ∧
    requireWeamAuthHidden env req acc = AuthDecision.proceed (some (req.reqUser.getD devUser)) ∧
    (req.reqUser = none → requireWeamAuth env req acc = AuthDecision.proceed (some devUser)) ∧
    (∀ c m2, requireWeamAuth env req acc ≠ AuthDecision.reject c m2) ∧
    (∀ c m2, requireWeamAuthHidden env req acc ≠ AuthDecision.reject c m2) ∧
    getSession env cn cp dec =
      { user := some { id := "dev-user", email := "dev@local" },
        companyId := some "dev-company" } := by
  subst h
  have h1 : requireWeamAuth "true" req acc =
      AuthDecision.proceed (some (req.reqUser.getD devUser)) := rfl
  have h2 : requireWeamAuthHidden "true" req acc =
      AuthDecision.proceed (some (req.reqUser.getD devUser)) := rfl
  refine ⟨h1, h2, ?_, ?_, ?_, rfl⟩
  · intro hnone
    rw [hnone] at h1
    exact h1
  · intro c m2 hc
    rw [h1] at hc
    exact AuthDecision.noConfusion hc
  · intro c m2 hc
    rw [h2] at hc
    exact AuthDecision.noConfusion hc

/-- Witness for C10 at a concrete request with no session, no req.user, a
denied access check and unset cookie configuration. -/
theorem c10_auth_bypass_witness :
    requireWeamAuth "true" { sessionUser := none, reqUser := none }
      AccessOutcome.denied = AuthDecision.proceed (some devUser) ∧
    requireWeamAuthHidden "true" { sessionUser := none, reqUser := none }
      AccessOutcome.denied = AuthDecision.proceed (some devUser) ∧
    getSession "true" none none { user := none, companyId := none } =
      { user := some { id := "dev-user", email := "dev@local" },
        companyId := some "dev-company" } :=
  ⟨(c10_auth_bypass "true" { sessionUser := none, reqUser := none }
      AccessOutcome.denied none none { user := none, companyId := none } rfl).2.2.1 rfl,
   (c10_auth_bypass "true" { sessionUser := none, reqUser := none }
      AccessOutcome.denied none none { user := none, companyId := none } rfl).2.1,
   (c10_auth_bypass "true" { sessionUser := none, reqUser := none }
      AccessOutcome.denied none none { user := none, companyId := none } rfl).2.2.2.2.2⟩

end AIVideo
